import Mathlib

-- Verification of the pystall core (src/pystall/core.py) against its
-- natural-language specification.
--
-- Modelling conventions (shallow embedding):
--   * The filesystem is a list of existing paths (FS).  os.path.exists is
--     list membership; os.remove is List.erase; writing a file conses it.
--   * Subprocess execution (subprocess.Popen + the busy poll loop that
--     blocks until termination) is modelled by an oracle
--     ec : String -> Int giving the exit status of each command string,
--     recorded as an Event.run entry in the trace.
--   * Network transfer (requests.get + streaming write) is modelled as an
--     Event.net entry plus creation of the target file; the success path
--     of the source is modelled (the source has no error catching, a
--     failing transfer raises out of the whole script).
--   * Python exceptions that the source can raise on its own
--     (UnboundLocalError when the local variable installer was never
--     assigned, AttributeError when self.name does not exist) are modelled
--     by PyErr, threaded as an Option in result tuples; a some value
--     propagates like an uncaught exception.
--   * logging.info calls are not observable effects we track;
--     logging.error calls are recorded as Event.logErr since the spec
--     talks about user-visible failure messages.
--   * Python str operations are modelled on the character list of the
--     String so that every definition evaluates inside the kernel:
--     s.startswith(p)  ~ strStartsWith, s[:-n] ~ sliceDropRight,
--     s.lower() ~ pyLower, s.strip() ~ pyStrip.

namespace Pystall

-- The resource kinds of core.py: EXEResource, MSIResource, StaticResource,
-- ZIPResource, DEBResource, CUSTOMPPAResource, TARBALLResource, APTResource.
inductive Kind where
  | exe
  | msi
  | static
  | zip
  | deb
  | ppa
  | tarball
  | apt
deriving DecidableEq, Repr

-- CUSTOMPPAResource / APTResource accept either a single package name
-- (str) or a list of names (list/tuple); core.py branches on type().
inductive Packages where
  | single (s : String)
  | many (l : List String)
deriving DecidableEq, Repr

-- The per-instance fields of a Resource object (core.py lines 222-244 and
-- the subclass constructors).  kind selects which subclass the instance
-- belongs to.  APTResource / CUSTOMPPAResource do not define extension,
-- location, arguments or remove; for those kinds the fields are unused by
-- every code path we model.  The source stores arguments but never passes
-- it to any subprocess.
structure RFields where
  kind : Kind
  label : String
  extension : String
  location : String
  arguments : Option (List String)
  downloaded : Bool
  remove : Bool
  packages : Packages
  ppaName : String
deriving DecidableEq, Repr

-- A Resource instance together with its dependencies tuple
-- (self.dependencies, a sequence of further Resource instances).
inductive Resource where
  | mk (fields : RFields) (deps : List Resource)

def Resource.fields : Resource → RFields
  | .mk f _ => f

def Resource.deps : Resource → List Resource
  | .mk _ d => d

-- Observable side effects, in execution order.
inductive Event where
  | net (url : String) (path : String)
  | run (cmd : String) (exitCode : Int)
  | extract (src : String) (dst : String)
  | rm (path : String)
  | logErr (msg : String)
deriving DecidableEq, Repr

def Event.isNet : Event → Bool
  | .net _ _ => true
  | _ => false

-- Exceptions the source raises on its own in the paths we model.
inductive PyErr where
  | unboundLocalError (name : String)
  | attributeError (attr : String)
deriving DecidableEq, Repr

-- The filesystem: the set of currently existing paths, as a list.
abbrev FS := List String

-- Python str helpers on the character list, all kernel-computable.
def strStartsWith (s pre : String) : Bool :=
  pre.data.isPrefixOf s.data

def sliceDropRight (s : String) (n : Nat) : String :=
  ⟨s.data.take (s.data.length - n)⟩

def pyLower (s : String) : String :=
  ⟨s.data.map Char.toLower⟩

def pyStrip (s : String) : String :=
  ⟨((s.data.dropWhile Char.isWhitespace).reverse.dropWhile Char.isWhitespace).reverse⟩

-- DOWNLOAD_FOLDER (core.py lines 97-103) is derived from environment
-- variables; its concrete value is irrelevant to every claim, we fix a
-- representative value.  os.sep on the modelled platform is "/".
def DOWNLOAD_FOLDER : String := "HOME/Downloads"

def osSep : String := "/"

-- The default target path of Resource.download (core.py line 267):
-- f-string DOWNLOAD_FOLDER + os.sep + label + extension.
def defaultPath (f : RFields) : String :=
  DOWNLOAD_FOLDER ++ osSep ++ f.label ++ f.extension

-- Resource.download (core.py lines 246-298).  file_path = False (the
-- default) is modelled as none.  Returns the updated fields, the updated
-- filesystem and the trace.  The branches, in source order:
--   * resolve the default path when no explicit path was given;
--   * if the file already exists: set downloaded and location, return;
--   * if location starts with https:// or http://: stream the file to the
--     path, then set downloaded and location;
--   * otherwise: set downloaded only (location untouched, not checked).
def RFields.download (f : RFields) (fs : FS) (filePath : Option String) :
    RFields × FS × List Event :=
  let fp := filePath.getD (defaultPath f)
  if fp ∈ fs then
    ({ f with downloaded := true, location := fp }, fs, [])
  else if strStartsWith f.location "https://" || strStartsWith f.location "http://" then
    ({ f with downloaded := true, location := fp }, fp :: fs, [.net f.location fp])
  else
    ({ f with downloaded := true }, fs, [])

-- Command strings issued by the repository-based resources.
def aptUpdateCmd : String := "sudo apt-get update"

def aptInstallCmd (p : String) : String := "sudo apt install " ++ p

-- CUSTOMPPAResource.download (core.py line 761).
def ppaDownloadCmd (f : RFields) : String :=
  "sudo add-apt-repository ppa:" ++ f.ppaName ++ " && " ++ aptUpdateCmd

-- The download step build() invokes, dispatched on the dynamic type of the
-- resource: APTResource.download (core.py 941-948) runs apt-get update,
-- CUSTOMPPAResource.download (757-764) adds the PPA and updates, every
-- other kind uses the inherited Resource.download with no argument.
-- Neither repository variant touches self.downloaded.
def downloadRes (ec : String → Int) (f : RFields) (fs : FS) :
    RFields × FS × List Event :=
  match f.kind with
  | .apt => (f, fs, [.run aptUpdateCmd (ec aptUpdateCmd)])
  | .ppa => (f, fs, [.run (ppaDownloadCmd f) (ec (ppaDownloadCmd f))])
  | _ => f.download fs none

-- The error message of EXEResource.install (core.py line 374).
def notDownloadedMsg (f : RFields) : String :=
  f.label ++ " failed to install due to not being downloaded"

-- The own install action of each kind, run after the dependency loop
-- inside install():
--   * exe (core.py 370-382): if downloaded, Popen(location) and poll until
--     exit, then remove the file when self.remove; if not downloaded,
--     logging.error names the label, after which the poll loop reads the
--     never-assigned local installer, raising UnboundLocalError.
--   * msi (450-462): same as exe, but the not-downloaded branch formats
--     self.name, an attribute that does not exist, raising AttributeError
--     before anything is logged.
--   * static (516-527): nothing beyond the dependency loop.
--   * zip (581-611): if downloaded, extract to location[:-3], then remove
--     the archive when self.remove; if not downloaded, self.name raises
--     AttributeError.
--   * deb (665-690): like exe with command "sudo apt install " + location,
--     and the self.name AttributeError when not downloaded.
--   * tarball (848-879): like zip with location[:-7].
--   * apt / ppa (766-794, 950-976): one "sudo apt install " command per
--     package, sequentially, polling each to termination; exit statuses
--     are never inspected.
def installAction (ec : String → Int) (f : RFields) (fs : FS) :
    FS × List Event × Option PyErr :=
  match f.kind with
  | .exe =>
    if f.downloaded then
      if f.remove then
        (fs.erase f.location,
         [.run f.location (ec f.location), .rm f.location], none)
      else
        (fs, [.run f.location (ec f.location)], none)
    else
      (fs, [.logErr (notDownloadedMsg f)], some (.unboundLocalError "installer"))
  | .msi =>
    if f.downloaded then
      if f.remove then
        (fs.erase f.location,
         [.run f.location (ec f.location), .rm f.location], none)
      else
        (fs, [.run f.location (ec f.location)], none)
    else
      (fs, [], some (.attributeError "name"))
  | .static => (fs, [], none)
  | .zip =>
    if f.downloaded then
      if f.remove then
        ((sliceDropRight f.location 3 :: fs).erase f.location,
         [.extract f.location (sliceDropRight f.location 3), .rm f.location], none)
      else
        (sliceDropRight f.location 3 :: fs,
         [.extract f.location (sliceDropRight f.location 3)], none)
    else
      (fs, [], some (.attributeError "name"))
  | .deb =>
    if f.downloaded then
      if f.remove then
        (fs.erase f.location,
         [.run (aptInstallCmd f.location) (ec (aptInstallCmd f.location)),
          .rm f.location], none)
      else
        (fs, [.run (aptInstallCmd f.location) (ec (aptInstallCmd f.location))], none)
    else
      (fs, [], some (.attributeError "name"))
  | .tarball =>
    if f.downloaded then
      if f.remove then
        ((sliceDropRight f.location 7 :: fs).erase f.location,
         [.extract f.location (sliceDropRight f.location 7), .rm f.location], none)
      else
        (sliceDropRight f.location 7 :: fs,
         [.extract f.location (sliceDropRight f.location 7)], none)
    else
      (fs, [], some (.attributeError "name"))
  | .apt =>
    match f.packages with
    | .single s => (fs, [.run (aptInstallCmd s) (ec (aptInstallCmd s))], none)
    | .many l =>
      (fs, l.map (fun p => Event.run (aptInstallCmd p) (ec (aptInstallCmd p))), none)
  | .ppa =>
    match f.packages with
    | .single s => (fs, [.run (aptInstallCmd s) (ec (aptInstallCmd s))], none)
    | .many l =>
      (fs, l.map (fun p => Event.run (aptInstallCmd p) (ec (aptInstallCmd p))), none)

-- build (core.py 979-990) and the install methods, mutually recursive
-- through the dependency loop: every install() first iterates
-- self.dependencies and calls build(dependency) on each, then performs its
-- own action.  buildOne is the per-resource body of build():
-- if not downloaded, download(); then install().  A some error aborts the
-- remaining work like an uncaught Python exception.
mutual

def buildOne (ec : String → Int) (fs : FS) : Resource → Resource × FS × List Event × Option PyErr
  | .mk f deps =>
    match (if f.downloaded then (f, fs, ([] : List Event)) else downloadRes ec f fs) with
    | (f1, fs1, ev1) =>
      match build ec fs1 deps with
      | (deps', fs2, ev2, some e) => (.mk f1 deps', fs2, ev1 ++ ev2, some e)
      | (deps', fs2, ev2, none) =>
        match installAction ec f1 fs2 with
        | (fs3, ev3, e3) => (.mk f1 deps', fs3, ev1 ++ (ev2 ++ ev3), e3)

def build (ec : String → Int) (fs : FS) : List Resource → List Resource × FS × List Event × Option PyErr
  | [] => ([], fs, [], none)
  | r :: rest =>
    match buildOne ec fs r with
    | (r', fs1, ev1, some e) => (r' :: rest, fs1, ev1, some e)
    | (r', fs1, ev1, none) =>
      match build ec fs1 rest with
      | (rest', fs2, ev2, e2) => (r' :: rest', fs2, ev1 ++ ev2, e2)

end

-- The install() method body shared by every kind (dependency loop, then
-- the own action), as a standalone function: build over the dependencies,
-- and only if that completed without an exception, the own action.
def install (ec : String → Int) (fs : FS) (f : RFields) (deps : List Resource) :
    List Resource × FS × List Event × Option PyErr :=
  match build ec fs deps with
  | (deps', fs1, ev1, some e) => (deps', fs1, ev1, some e)
  | (deps', fs1, ev1, none) =>
    match installAction ec f fs1 with
    | (fs2, ev2, e2) => (deps', fs2, ev1 ++ ev2, e2)

-- Agreement gate (core.py 219-237, repeated verbatim in CUSTOMPPAResource
-- and APTResource constructors).  Resource.agreement is a class variable
-- initialised to False.  The prompt loop consumes interactive responses;
-- each response is passed through .lower().strip(); "y" opens the gate and
-- the loop exits, "n" calls sys.exit, anything else clears the screen and
-- asks again.  We model the response stream as a list; exhausting it with
-- the gate still closed leaves the constructor blocked on input.
def initialAgreement : Bool := false

inductive GateOutcome where
  | proceed
  | terminated
  | blocked
deriving DecidableEq, Repr

def agreementGate : Bool → List String → GateOutcome × Bool
  | true, _ => (.proceed, true)
  | false, [] => (.blocked, false)
  | false, r :: rest =>
    let resp := pyStrip (pyLower r)
    if resp = "y" then (.proceed, true)
    else if resp = "n" then (.terminated, false)
    else agreementGate false rest

-- The gate check every Resource constructor performs before storing its
-- fields: skipped entirely when overwrite_agreement is passed.
def resourceCtorGate (overwriteAgreement : Bool) (agreement : Bool)
    (responses : List String) : GateOutcome × Bool :=
  if overwriteAgreement then (.proceed, agreement)
  else agreementGate agreement responses

-- The first decisive response in the stream: some true if a "y" comes
-- before any "n", some false if an "n" comes first, none if neither occurs.
def firstDecision : List String → Option Bool
  | [] => none
  | r :: rest =>
    let resp := pyStrip (pyLower r)
    if resp = "y" then some true
    else if resp = "n" then some false
    else firstDecision rest

-- A whole script run: construct one resource (paying the gate cost) and
-- then build it.  Construction precedes every download/install action of
-- the script, so a terminated gate means no action ever runs.
inductive RunResult where
  | terminated
  | blocked
  | completed (r : Resource) (fs : FS) (events : List Event) (err : Option PyErr)

def constructAndBuild (ec : String → Int) (fs : FS)
    (overwriteAgreement agreement : Bool) (responses : List String)
    (r : Resource) : RunResult × Bool :=
  match resourceCtorGate overwriteAgreement agreement responses with
  | (.proceed, a) =>
    match buildOne ec fs r with
    | (r', fs', ev, e) => (.completed r' fs' ev e, a)
  | (.terminated, a) => (.terminated, a)
  | (.blocked, a) => (.blocked, a)

-- APTResource.__init__ (core.py 920-939): after the gate, stores label,
-- packages, downloaded = False and dependencies.  The class defines no
-- extension, location, arguments or remove; those fields are unused by the
-- apt code paths and carry inert defaults here.
def mkAPTResource (label : String) (packages : Packages)
    (dependencies : List Resource) : Resource :=
  .mk { kind := .apt, label := label, extension := "", location := "",
        arguments := none, downloaded := false, remove := true,
        packages := packages, ppaName := "" } dependencies

-- CUSTOMPPAResource.__init__ (core.py 735-755): stores label, PPA,
-- packages, downloaded = False and dependencies.
def mkCUSTOMPPAResource (label : String) (PPA : String) (packages : Packages)
    (dependencies : List Resource) : Resource :=
  .mk { kind := .ppa, label := label, extension := "", location := "",
        arguments := none, downloaded := false, remove := true,
        packages := packages, ppaName := PPA } dependencies

-- Concrete fixtures used by closed theorems and witnesses.  The labels,
-- locations and package names come from the docstring examples of core.py.

def ecZero : String → Int := fun _ => 0

def ecFail : String → Int := fun _ => 1

def ecNanoFails : String → Int :=
  fun c => if c = "sudo apt install nano" then 1 else 0

def wallpaperR : RFields :=
  { kind := .static, label := "Wallpaper", extension := ".png",
    location := "https://images.unsplash.com/photo-1541599468348.png",
    arguments := none, downloaded := true, remove := true,
    packages := .many [], ppaName := "" }

def microZipR : RFields :=
  { kind := .zip, label := "micro editor", extension := ".zip",
    location := "micro-1.4.1-win64.zip", arguments := none,
    downloaded := true, remove := false, packages := .many [], ppaName := "" }

def microTarR : RFields :=
  { kind := .tarball, label := "Micro editor", extension := ".tar.gz",
    location := "micro-1.4.1-linux64.tar.gz", arguments := none,
    downloaded := true, remove := false, packages := .many [], ppaName := "" }

def exeNotDl : RFields :=
  { kind := .exe, label := "python-installer", extension := ".exe",
    location := "https://www.python.org/ftp/python/3.8.1/python-3.8.1.exe",
    arguments := none, downloaded := false, remove := true,
    packages := .many [], ppaName := "" }

def exeDl : RFields :=
  { kind := .exe, label := "python-installer", extension := ".exe",
    location := "HOME/Downloads/python-installer.exe", arguments := none,
    downloaded := true, remove := true, packages := .many [], ppaName := "" }

def localExe : RFields :=
  { kind := .exe, label := "python-installer", extension := ".exe",
    location := "python-3.8.1.exe", arguments := none, downloaded := false,
    remove := true, packages := .many [], ppaName := "" }

def editorsApt : RFields :=
  { kind := .apt, label := "Editors", extension := "", location := "",
    arguments := none, downloaded := false, remove := true,
    packages := .many ["nano", "vim"], ppaName := "" }

-- THEOREMS ------------------------------------------------------------------

/-- C1: the claim says a ZIP archive at local path micro-1.4.1-win64.zip is
extracted to the directory named by stripping the ".zip" suffix, namely
micro-1.4.1-win64.  The code (ZIPResource.extract, core.py 583) computes
location[:-3:], which strips only the three characters "zip" and leaves the
dot: the extraction directory is micro-1.4.1-win64. (with a trailing dot).
The tarball variant (core.py 850) strips the full 7-character ".tar.gz"
suffix and does satisfy the claim, which shows the zip slice count is a
slip, contradicting the comment in the source ("Strip extension and
extract to folder"), the documented example and the extension field ".zip"
of the class. -/
theorem c1_zip_extraction_keeps_trailing_dot :
    installAction ecZero microZipR [] =
      (["micro-1.4.1-win64."],
       [.extract "micro-1.4.1-win64.zip" "micro-1.4.1-win64."], none) ∧
    "micro-1.4.1-win64." ≠ "micro-1.4.1-win64" ∧
    installAction ecZero microTarR [] =
      (["micro-1.4.1-linux64"],
       [.extract "micro-1.4.1-linux64.tar.gz" "micro-1.4.1-linux64"], none) := by
  refine ⟨by decide, by decide, by decide⟩

/-- C2: the claim says calling install on a not-yet-downloaded EXE, MSI,
DEB, ZIP or tarball resource fails with a clean NotAcquired error naming
the resource, with no install action performed.  In the code the
not-downloaded branch of EXEResource.install logs an error naming the
label but then falls through to the poll loop, which reads the local
variable installer that was never assigned, raising UnboundLocalError
(core.py 371-378); the MSI, ZIP, DEB and tarball variants format
self.name, an attribute no resource has, raising AttributeError before
anything is even logged (core.py 454, 607, 683, 875).  No install action
(no subprocess, no extraction, no file removal) is performed in any of the
five cases, so that half of the claim holds, but the failure is an
unhandled crash, not the clean named error the spec describes. -/
theorem c2_not_downloaded_crashes :
    installAction ecZero exeNotDl [] =
      ([], [.logErr "python-installer failed to install due to not being downloaded"],
       some (.unboundLocalError "installer")) ∧
    installAction ecZero { exeNotDl with kind := .msi } [] =
      ([], [], some (.attributeError "name")) ∧
    installAction ecZero { exeNotDl with kind := .zip } [] =
      ([], [], some (.attributeError "name")) ∧
    installAction ecZero { exeNotDl with kind := .deb } [] =
      ([], [], some (.attributeError "name")) ∧
    installAction ecZero { exeNotDl with kind := .tarball } [] =
      ([], [], some (.attributeError "name")) := by
  refine ⟨by decide, by decide, by decide, by decide, by decide⟩

/-- C3 counterexample: with packages ["nano", "vim"] and the install
command for nano exiting with status 1, install still runs the install
command for vim and reports no error at all: the failure neither surfaces
as ProcessFailure nor stops the remaining packages, refuting the claim at
this concrete input. -/
theorem c3_counterexample :
    installAction ecNanoFails editorsApt [] =
      ([], [.run "sudo apt install nano" 1, .run "sudo apt install vim" 0], none) ∧
    (installAction ecNanoFails editorsApt []).2.2 = none ∧
    Event.run "sudo apt install vim" 0 ∈ (installAction ecNanoFails editorsApt []).2.1 := by
  refine ⟨by decide, by decide, by decide⟩

/-- C3 amended: for APT and CUSTOMPPA resources with a package list,
install runs one install command per package, sequentially in list order,
blocking on each; the exit statuses are never inspected, so a non-zero
exit for any package surfaces no error and every remaining package is
still attempted (core.py 788-794, 970-976 poll each subprocess to
termination and ignore the status). -/
theorem c3_packages_all_attempted (ec : String → Int) (fs : FS) (f : RFields)
    (l : List String) (hk : f.kind = .apt ∨ f.kind = .ppa)
    (hp : f.packages = .many l) :
    installAction ec f fs =
      (fs, l.map (fun p => Event.run (aptInstallCmd p) (ec (aptInstallCmd p))), none) := by
  rcases hk with hk | hk <;> simp [installAction, hk, hp]

/-- C3 witness: the amended theorem applied to a concrete two-package APT
resource whose first package install fails. -/
theorem c3_packages_all_attempted_witness :
    installAction ecNanoFails { editorsApt with label := "Editors2" } [] =
      ([], [.run "sudo apt install nano" 1, .run "sudo apt install vim" 0], none) := by
  have h := c3_packages_all_attempted ecNanoFails []
    { editorsApt with label := "Editors2" } ["nano", "vim"] (Or.inl rfl) rfl
  exact h.trans (by decide)

/-- C4 counterexample: a downloaded EXE resource with remove=True whose
installer exits with status 1: install reports no error (the exit status
is discarded by the poll loop, core.py 377) and still deletes the artifact
(core.py 380-382), refuting both the ProcessFailure reporting and the
delete-only-on-success parts of the claim at this concrete input. -/
theorem c4_counterexample :
    installAction ecFail exeDl ["HOME/Downloads/python-installer.exe"] =
      ([], [.run "HOME/Downloads/python-installer.exe" 1,
            .rm "HOME/Downloads/python-installer.exe"], none) := by
  decide

/-- C4 amended: for downloaded EXE, MSI and DEB resources, install launches
exactly one child process and blocks until it terminates, but the exit
status is ignored: no error is ever reported, and the artifact file is
deleted whenever remove is set, regardless of the exit status (the result
is the same for every exit-code oracle ec). -/
theorem c4_installer_exit_status_ignored (ec : String → Int) (fs : FS)
    (f : RFields) (hd : f.downloaded = true) :
    ((f.kind = .exe ∨ f.kind = .msi) →
      installAction ec f fs =
        (if f.remove then fs.erase f.location else fs,
         .run f.location (ec f.location) ::
           (if f.remove then [.rm f.location] else []), none)) ∧
    (f.kind = .deb →
      installAction ec f fs =
        (if f.remove then fs.erase f.location else fs,
         .run (aptInstallCmd f.location) (ec (aptInstallCmd f.location)) ::
           (if f.remove then [.rm f.location] else []), none)) := by
  constructor
  · rintro (hk | hk) <;> cases hr : f.remove <;> simp [installAction, hk, hd, hr]
  · intro hk
    cases hr : f.remove <;> simp [installAction, hk, hd, hr]

/-- C4 witness: the amended theorem applied to a concrete downloaded EXE
resource with a failing installer. -/
theorem c4_installer_exit_status_ignored_witness :
    installAction ecFail exeDl ["other", "HOME/Downloads/python-installer.exe"] =
      (["other"], [.run "HOME/Downloads/python-installer.exe" 1,
                   .rm "HOME/Downloads/python-installer.exe"], none) := by
  have h := (c4_installer_exit_status_ignored ecFail
    ["other", "HOME/Downloads/python-installer.exe"] exeDl rfl).1 (Or.inl rfl)
  exact h.trans (by decide)

/-- C5 counterexample: a resource whose location is a plain local string
that exists nowhere: download takes the final else branch (core.py
297-298), sets downloaded to True and returns without touching or checking
location, so afterwards downloaded is true while location is not an
existing path, refuting the claimed invariant at this concrete input. -/
theorem c5_counterexample :
    (RFields.download localExe [] (some "HOME/Downloads/python-installer.exe")).1.downloaded = true ∧
    ¬ ((RFields.download localExe [] (some "HOME/Downloads/python-installer.exe")).1.location ∈
        (RFields.download localExe [] (some "HOME/Downloads/python-installer.exe")).2.1) := by
  refine ⟨by decide, by decide⟩

/-- C5 amended: after a successful download, downloaded is always true; and
whenever the resolved target path already exists or location is an
http(s) URL, location is additionally set to the resolved target path,
which exists on the resulting filesystem.  Only the remaining case (a
non-URL location with no file at the target) leaves location unchanged and
unchecked, which is what breaks the unrestricted iff invariant. -/
theorem c5_download_establishes_location (f : RFields) (fs : FS)
    (filePath : Option String)
    (h : filePath.getD (defaultPath f) ∈ fs ∨
         strStartsWith f.location "https://" = true ∨
         strStartsWith f.location "http://" = true) :
    (f.download fs filePath).1.downloaded = true ∧
    (f.download fs filePath).1.location = filePath.getD (defaultPath f) ∧
    (f.download fs filePath).1.location ∈ (f.download fs filePath).2.1 := by
  by_cases hm : filePath.getD (defaultPath f) ∈ fs
  · simp [RFields.download, hm]
  · have hu : (strStartsWith f.location "https://" ||
        strStartsWith f.location "http://") = true := by
      rcases h with h | h | h
      · exact absurd h hm
      · simp [h]
      · simp [h]
    simp [RFields.download, hm, hu]

/-- C5 witness: the amended theorem applied to a concrete URL resource
downloading onto an empty filesystem. -/
theorem c5_download_establishes_location_witness :
    (RFields.download exeNotDl [] (some "HOME/Downloads/python-installer.exe")).1.downloaded = true ∧
    (RFields.download exeNotDl [] (some "HOME/Downloads/python-installer.exe")).1.location =
      "HOME/Downloads/python-installer.exe" ∧
    (RFields.download exeNotDl [] (some "HOME/Downloads/python-installer.exe")).1.location ∈
      (RFields.download exeNotDl [] (some "HOME/Downloads/python-installer.exe")).2.1 := by
  have h := c5_download_establishes_location exeNotDl []
    (some "HOME/Downloads/python-installer.exe") (Or.inr (Or.inl (by decide)))
  exact ⟨h.1, h.2.1, h.2.2⟩

/-- C6: download is idempotent with respect to the target path.  If a file
already exists at the resolved path, download sets downloaded, points
location at that path and returns with no network transfer (core.py
269-272).  In general a first call performs at most one network transfer,
and a second call with the same target argument changes nothing and
performs no event at all: after a URL download the file now exists, so the
second call takes the existence short-circuit; in the local-location case
nothing was written and the second call takes the same transferless branch
again. -/
theorem c6_download_idempotent (f : RFields) (fs : FS) (filePath : Option String) :
    (filePath.getD (defaultPath f) ∈ fs →
      f.download fs filePath =
        ({ f with downloaded := true, location := filePath.getD (defaultPath f) }, fs, [])) ∧
    (f.download fs filePath).2.2.countP Event.isNet ≤ 1 ∧
    RFields.download (f.download fs filePath).1 (f.download fs filePath).2.1 filePath =
      ((f.download fs filePath).1, (f.download fs filePath).2.1, []) := by
  have hdp : ∀ (b : Bool) (loc : String),
      defaultPath { f with downloaded := b, location := loc } = defaultPath f :=
    fun _ _ => rfl
  have hdp2 : ∀ (b : Bool),
      defaultPath { f with downloaded := b } = defaultPath f :=
    fun _ => rfl
  by_cases hm : filePath.getD (defaultPath f) ∈ fs
  · have hd1 : f.download fs filePath =
        ({ f with downloaded := true, location := filePath.getD (defaultPath f) }, fs, []) := by
      simp [RFields.download, hm]
    refine ⟨fun _ => hd1, ?_, ?_⟩
    · rw [hd1]
      simp
    · rw [hd1]
      simp [RFields.download, hdp, hm]
  · by_cases hu : strStartsWith f.location "https://" = true ∨
        strStartsWith f.location "http://" = true
    · have hd1 : f.download fs filePath =
          ({ f with downloaded := true, location := filePath.getD (defaultPath f) },
           filePath.getD (defaultPath f) :: fs,
           [.net f.location (filePath.getD (defaultPath f))]) := by
        simp [RFields.download, hm, hu]
      refine ⟨fun hmem => absurd hmem hm, ?_, ?_⟩
      · rw [hd1]
        simp [Event.isNet]
      · rw [hd1]
        simp [RFields.download, hdp]
    · have hd1 : f.download fs filePath = ({ f with downloaded := true }, fs, []) := by
        simp [RFields.download, hm, hu]
      refine ⟨fun hmem => absurd hmem hm, ?_, ?_⟩
      · rw [hd1]
        simp
      · rw [hd1]
        simp [RFields.download, hdp2, hm, hu]

/-- C6 witness: the existence short-circuit applied to a concrete target
path that is already present on the filesystem. -/
theorem c6_download_idempotent_witness :
    RFields.download wallpaperR ["HOME/Downloads/Wallpaper.png"]
        (some "HOME/Downloads/Wallpaper.png") =
      ({ wallpaperR with downloaded := true, location := "HOME/Downloads/Wallpaper.png" },
       ["HOME/Downloads/Wallpaper.png"], []) := by
  exact (c6_download_idempotent wallpaperR ["HOME/Downloads/Wallpaper.png"]
    (some "HOME/Downloads/Wallpaper.png")).1 (by decide)

/-- C7: build processes its resources strictly in sequence order:
the empty sequence is a no-op that succeeds; a cons first runs the
per-resource body on the head (an uncaught exception there stops the whole
build, leaving the rest untouched), then recurses on the tail, appending
the traces in order; and the per-resource body performs the acquire phase
first -- skipped exactly when the resource is already downloaded -- and
then the install phase. -/
theorem c7_build_sequential (ec : String → Int) :
    (∀ fs, build ec fs [] = ([], fs, [], none)) ∧
    (∀ fs r rest r' fs1 ev1, buildOne ec fs r = (r', fs1, ev1, none) →
      build ec fs (r :: rest) =
        (r' :: (build ec fs1 rest).1, (build ec fs1 rest).2.1,
         ev1 ++ (build ec fs1 rest).2.2.1, (build ec fs1 rest).2.2.2)) ∧
    (∀ fs r rest r' fs1 ev1 e, buildOne ec fs r = (r', fs1, ev1, some e) →
      build ec fs (r :: rest) = (r' :: rest, fs1, ev1, some e)) ∧
    (∀ fs f deps, f.downloaded = true →
      buildOne ec fs (.mk f deps) =
        (.mk f (install ec fs f deps).1, (install ec fs f deps).2.1,
         (install ec fs f deps).2.2.1, (install ec fs f deps).2.2.2)) ∧
    (∀ fs f deps, f.downloaded = false →
      buildOne ec fs (.mk f deps) =
        (.mk (downloadRes ec f fs).1
           (install ec (downloadRes ec f fs).2.1 (downloadRes ec f fs).1 deps).1,
         (install ec (downloadRes ec f fs).2.1 (downloadRes ec f fs).1 deps).2.1,
         (downloadRes ec f fs).2.2 ++
           (install ec (downloadRes ec f fs).2.1 (downloadRes ec f fs).1 deps).2.2.1,
         (install ec (downloadRes ec f fs).2.1 (downloadRes ec f fs).1 deps).2.2.2)) := by
  refine ⟨fun fs => rfl, ?_, ?_, ?_, ?_⟩
  · intro fs r rest r' fs1 ev1 h
    rcases hb : build ec fs1 rest with ⟨rest', fs2, ev2, e2⟩
    simp [build, h, hb]
  · intro fs r rest r' fs1 ev1 e h
    simp [build, h]
  · intro fs f deps hd
    rcases hb : build ec fs deps with ⟨deps', fs2, ev2, e⟩
    cases e with
    | some e => simp [buildOne, install, hd, hb]
    | none =>
      rcases ha : installAction ec f fs2 with ⟨fs3, ev3, e3⟩
      simp [buildOne, install, hd, hb, ha]
  · intro fs f deps hd
    rcases hdl : downloadRes ec f fs with ⟨f1, fs1, ev1⟩
    rcases hb : build ec fs1 deps with ⟨deps', fs2, ev2, e⟩
    cases e with
    | some e => simp [buildOne, install, hd, hdl, hb]
    | none =>
      rcases ha : installAction ec f1 fs2 with ⟨fs3, ev3, e3⟩
      simp [buildOne, install, hd, hdl, hb, ha]

/-- C7 witness: the cons rule applied to a concrete two-element sequence of
already-downloaded static resources. -/
theorem c7_build_sequential_witness :
    build ecZero [] [Resource.mk wallpaperR [], Resource.mk wallpaperR []] =
      ([Resource.mk wallpaperR [], Resource.mk wallpaperR []], [], [], none) := by
  have h := (c7_build_sequential ecZero).2.1 [] (Resource.mk wallpaperR [])
    [Resource.mk wallpaperR []] (Resource.mk wallpaperR []) [] [] (by rfl)
  exact h.trans (by rfl)

/-- C8: every install method first builds all declared dependencies, in
order, transitively (the dependency phase is exactly build over the
dependency list, whose per-element body recursively contains its own
dependency phase), and only if that completed without an exception does
the resource's own install action execute -- on the filesystem state left
by the dependency phase, with its events strictly after all dependency
events.  If the dependency phase raises, the own action never runs. -/
theorem c8_dependencies_before_own_action (ec : String → Int) (fs : FS)
    (f : RFields) (deps : List Resource) :
    (∀ deps' fs1 ev1, build ec fs deps = (deps', fs1, ev1, none) →
      install ec fs f deps =
        (deps', (installAction ec f fs1).1,
         ev1 ++ (installAction ec f fs1).2.1, (installAction ec f fs1).2.2)) ∧
    (∀ deps' fs1 ev1 e, build ec fs deps = (deps', fs1, ev1, some e) →
      install ec fs f deps = (deps', fs1, ev1, some e)) := by
  constructor
  · intro deps' fs1 ev1 hb
    rcases ha : installAction ec f fs1 with ⟨fs2, ev2, e2⟩
    simp [install, hb, ha]
  · intro deps' fs1 ev1 e hb
    simp [install, hb]

/-- C8 witness: the dependency-first rule applied to a concrete EXE
resource with one static dependency. -/
theorem c8_dependencies_before_own_action_witness :
    install ecZero [] exeDl [Resource.mk wallpaperR []] =
      ([Resource.mk wallpaperR []], [],
       [.run "HOME/Downloads/python-installer.exe" 0,
        .rm "HOME/Downloads/python-installer.exe"], none) := by
  have h := (c8_dependencies_before_own_action ecZero [] exeDl
    [Resource.mk wallpaperR []]).1 [Resource.mk wallpaperR []] [] [] (by rfl)
  exact h.trans (by rfl)

-- Helper for C9: the closed gate behaves according to the first decisive
-- response of the stream.
theorem agreementGate_false_eq (rs : List String) :
    agreementGate false rs =
      match firstDecision rs with
      | some true => (.proceed, true)
      | some false => (.terminated, false)
      | none => (.blocked, false) := by
  induction rs with
  | nil => rfl
  | cons r rest ih =>
    by_cases h1 : pyStrip (pyLower r) = "y"
    · simp [agreementGate, firstDecision, h1]
    · by_cases h2 : pyStrip (pyLower r) = "n"
      · simp [agreementGate, firstDecision, h1, h2]
      · simpa [agreementGate, firstDecision, h1, h2] using ih

/-- C9: the agreement gate is the single class variable Resource.agreement,
initialised False; once it is true every later constructor check returns
immediately with it still true (it is never reset); with the gate closed,
the constructor returns exactly when the first decisive response of the
prompt stream is an affirmative "y" (anything else re-prompts, so the
constructor stays blocked without one), it terminates the process exactly
when the first decisive response is "n", and in that case a script that
constructs a resource and then builds it terminates during construction,
before any download or install action runs. -/
theorem c9_agreement_gate :
    initialAgreement = false ∧
    (∀ rs, agreementGate true rs = (.proceed, true)) ∧
    (∀ ov rs, resourceCtorGate ov true rs = (.proceed, true)) ∧
    (∀ rs, agreementGate false rs = (.proceed, true) ↔ firstDecision rs = some true) ∧
    (∀ rs, agreementGate false rs = (.terminated, false) ↔ firstDecision rs = some false) ∧
    (∀ rs, agreementGate false rs = (.blocked, false) ↔ firstDecision rs = none) ∧
    (∀ ec fs r rs, firstDecision rs = some false →
      constructAndBuild ec fs false false rs r = (.terminated, false)) := by
  refine ⟨rfl, fun rs => by simp [agreementGate], ?_, ?_, ?_, ?_, ?_⟩
  · intro ov rs
    cases ov <;> simp [resourceCtorGate, agreementGate]
  · intro rs
    rw [agreementGate_false_eq]
    rcases hfd : firstDecision rs with _ | b
    · simp
    · cases b <;> simp
  · intro rs
    rw [agreementGate_false_eq]
    rcases hfd : firstDecision rs with _ | b
    · simp
    · cases b <;> simp
  · intro rs
    rw [agreementGate_false_eq]
    rcases hfd : firstDecision rs with _ | b
    · simp
    · cases b <;> simp
  · intro ec fs r rs h
    have hg : agreementGate false rs = (.terminated, false) := by
      rw [agreementGate_false_eq, h]
    simp [constructAndBuild, resourceCtorGate, hg]

/-- C9 witness: a concrete stream whose first decisive response is a
negative (after lowercasing and stripping): the run terminates during
construction with no build output, and a concrete check that an open gate
stays open. -/
theorem c9_agreement_gate_witness :
    constructAndBuild ecZero [] false false ["maybe", " N "]
        (Resource.mk wallpaperR []) = (.terminated, false) ∧
    agreementGate true ["n"] = (.proceed, true) := by
  refine ⟨?_, c9_agreement_gate.2.1 ["n"]⟩
  exact c9_agreement_gate.2.2.2.2.2.2 ecZero [] (Resource.mk wallpaperR [])
    ["maybe", " N "] (by decide)

/-- C10: APTResource and CUSTOMPPAResource initialise downloaded to False
in their constructors, and their download methods (apt-get update, or
add-apt-repository plus apt-get update) never set it to true; consequently
every build of such a resource, including a repeated build of the very
instance a previous build returned, runs the package-index refresh command
again before installing: the built resource keeps downloaded = false and
its trace starts with the refresh command. -/
theorem c10_apt_ppa_always_refresh (ec : String → Int) :
    (∀ l p d, (mkAPTResource l p d).fields.downloaded = false) ∧
    (∀ l ppa p d, (mkCUSTOMPPAResource l ppa p d).fields.downloaded = false) ∧
    (∀ fs f, f.kind = .apt →
      downloadRes ec f fs = (f, fs, [.run aptUpdateCmd (ec aptUpdateCmd)])) ∧
    (∀ fs f, f.kind = .ppa →
      downloadRes ec f fs = (f, fs, [.run (ppaDownloadCmd f) (ec (ppaDownloadCmd f))])) ∧
    (∀ fs f deps, f.kind = .apt → f.downloaded = false →
      (buildOne ec fs (.mk f deps)).1.fields = f ∧
      (buildOne ec fs (.mk f deps)).2.2.1.head? =
        some (.run aptUpdateCmd (ec aptUpdateCmd))) ∧
    (∀ fs f deps, f.kind = .ppa → f.downloaded = false →
      (buildOne ec fs (.mk f deps)).1.fields = f ∧
      (buildOne ec fs (.mk f deps)).2.2.1.head? =
        some (.run (ppaDownloadCmd f) (ec (ppaDownloadCmd f)))) := by
  refine ⟨fun l p d => rfl, fun l ppa p d => rfl, ?_, ?_, ?_, ?_⟩
  · intro fs f hk
    simp [downloadRes, hk]
  · intro fs f hk
    simp [downloadRes, hk]
  · intro fs f deps hk hd
    rcases hb : build ec fs deps with ⟨deps', fs2, ev2, e⟩
    cases e with
    | some e =>
      constructor <;> simp [buildOne, downloadRes, hk, hd, hb, Resource.fields]
    | none =>
      rcases ha : installAction ec f fs2 with ⟨fs3, ev3, e3⟩
      constructor <;> simp [buildOne, downloadRes, hk, hd, hb, ha, Resource.fields]
  · intro fs f deps hk hd
    rcases hb : build ec fs deps with ⟨deps', fs2, ev2, e⟩
    cases e with
    | some e =>
      constructor <;> simp [buildOne, downloadRes, hk, hd, hb, Resource.fields]
    | none =>
      rcases ha : installAction ec f fs2 with ⟨fs3, ev3, e3⟩
      constructor <;> simp [buildOne, downloadRes, hk, hd, hb, ha, Resource.fields]

/-- C10 witness: building a concrete freshly constructed APTResource leaves
downloaded false and starts with the index refresh, so a second build of
the returned instance refreshes again. -/
theorem c10_apt_ppa_always_refresh_witness :
    (buildOne ecZero [] (mkAPTResource "Nano Editor" (.single "nano") [])).1.fields =
      (mkAPTResource "Nano Editor" (.single "nano") []).fields ∧
    (buildOne ecZero [] (mkAPTResource "Nano Editor" (.single "nano") [])).2.2.1.head? =
      some (.run aptUpdateCmd 0) := by
  have h := (c10_apt_ppa_always_refresh ecZero).2.2.2.2.1 []
    (mkAPTResource "Nano Editor" (.single "nano") []).fields [] (by rfl) (by rfl)
  exact ⟨h.1, h.2⟩

end Pystall
